import Mathlib

/-!
Shallow embedding of the SSO authentication service
(`internal/services/auth/auth.go` and `internal/lib/jwt`).

Modelling conventions:
* Go `error` values are modelled by two inductive types.  `ExtError` is an
  error produced outside the `auth` package (by the storage backend, by
  `bcrypt`, or by the jwt signing primitive); its sentinel constructors
  `ErrUserNotFound` / `ErrUserExists` stand for the `storage` package's
  sentinels that `auth.go` tests with `errors.Is`.  `GoError` is the error
  type as seen by callers of the auth service: it embeds external errors
  via `GoError.ext`, has one constructor per sentinel declared in
  `auth.go` (`ErrInvalidCredentials`, `ErrInvalidAppID`, `ErrUserExists`,
  `ErrUserNotFound`), and a `wrapped` constructor modelling
  `fmt.Errorf("%s: %w", op, err)`.  The split between the two types
  encodes the fact that `errors.New` sentinels created in package `auth`
  can never be returned by the storage / crypto collaborators (package
  `storage` cannot import package `auth`).
* `errors.Is` is modelled by the `is` functions: equality against the
  target, unwrapping one layer of `wrapped` at a time.
* Go multi-value returns `(T, error)` are modelled by `T × Option _`
  (with `none` for a nil error), so that the value returned alongside an
  error is observable, exactly as in Go.
* Time is modelled as an integer count of nanoseconds since the Unix
  epoch (`time.Duration` is an integer nanosecond count in Go);
  `Time.Unix` is floor division by 10^9.
-/

/-- An error produced outside the `auth` package: by a store implementing
the `UserSaver`/`UserProvider`/`AppProvider` contracts, by `bcrypt`, or by
the jwt signing primitive.  `ErrUserNotFound` and `ErrUserExists` stand
for the `storage` package's sentinel errors that `auth.go` matches with
`errors.Is`; `other` stands for any further distinct error value. -/
inductive ExtError where
  | ErrUserNotFound : ExtError
  | ErrUserExists : ExtError
  | wrapped (op : String) (e : ExtError) : ExtError
  | other (tag : Nat) : ExtError
  deriving DecidableEq, Repr

/-- `errors.Is` restricted to external errors: compare against the target,
unwrapping one layer at a time. -/
def ExtError.is : ExtError → ExtError → Bool
  | .wrapped o e, t => decide (ExtError.wrapped o e = t) || ExtError.is e t
  | e, t => decide (e = t)

/-- A Go `error` value as observed by a caller of the auth service.
`ext` embeds an error of a collaborator package; the four `Err...`
constructors are the sentinels declared in `auth.go`; `wrapped` models
`fmt.Errorf("%s: %w", op, err)`. -/
inductive GoError where
  | ext (e : ExtError) : GoError
  | ErrInvalidCredentials : GoError
  | ErrInvalidAppID : GoError
  | ErrUserExists : GoError
  | ErrUserNotFound : GoError
  | wrapped (op : String) (e : GoError) : GoError
  deriving DecidableEq, Repr

/-- `errors.Is` on service-level errors: compare against the target,
unwrapping `wrapped` layers; an embedded external error keeps unwrapping
inside `ExtError` when the target is itself an external error. -/
def GoError.is : GoError → GoError → Bool
  | .wrapped o e, t => decide (GoError.wrapped o e = t) || GoError.is e t
  | .ext e, t =>
      decide (GoError.ext e = t) ||
        (match t with
         | .ext t0 => ExtError.is e t0
         | _ => false)
  | e, t => decide (e = t)

/-- `models.User`: the persisted user record (`id`, `email`, `passHash`)
as used by `auth.go` (fields `ID`, `Email`, `PassHash`). -/
structure User where
  id : Int
  email : String
  passHash : List Nat
  deriving DecidableEq, Repr

/-- The zero value of `models.User`, returned by Go store calls alongside
a non-nil error. -/
def User.zero : User := { id := 0, email := "", passHash := [] }

/-- `models.App`: the application record (`ID`, `Secret`) as used by
`auth.go` and `jwt.NewToken`. -/
structure App where
  id : Int
  secret : String
  deriving DecidableEq, Repr

/-- The zero value of `models.App`. -/
def App.zero : App := { id := 0, secret := "" }

/-- The UTF-8 encoding of a single code point, as natural numbers. -/
def charUtf8 (n : Nat) : List Nat :=
  if n < 0x80 then [n]
  else if n < 0x800 then [0xC0 + n / 0x40, 0x80 + n % 0x40]
  else if n < 0x10000 then
    [0xE0 + n / 0x1000, 0x80 + n / 0x40 % 0x40, 0x80 + n % 0x40]
  else
    [0xF0 + n / 0x40000, 0x80 + n / 0x1000 % 0x40,
     0x80 + n / 0x40 % 0x40, 0x80 + n % 0x40]

/-- `[]byte(s)`: the UTF-8 bytes of a string, as natural numbers. -/
def strBytes (s : String) : List Nat :=
  s.data.flatMap (fun c => charUtf8 c.toNat)

/-- The `UserSaver` contract: `SaveUser(ctx, email, passHash)` returning
`(uid, err)`.  The context argument is dropped (no cancellation in the
embedding). -/
structure UserSaver where
  SaveUser : String → List Nat → Int × Option ExtError

/-- The `UserProvider` contract: `User(ctx, email)`, `IsAdmin(ctx, uid)`,
`IsUserExists(ctx, uid)`. -/
structure UserProvider where
  User : String → User × Option ExtError
  IsAdmin : Int → Bool × Option ExtError
  IsUserExists : Int → Bool × Option ExtError

/-- The `AppProvider` contract: `App(ctx, appID)`. -/
structure AppProvider where
  App : Int → App × Option ExtError

/-- `bcrypt.DefaultCost` from `golang.org/x/crypto/bcrypt`. -/
def bcryptDefaultCost : Nat := 10

/-- The bcrypt primitives used by `auth.go`, as an abstract interface:
`GenerateFromPassword(password, cost)` returns a hash or an error;
`CompareHashAndPassword(hash, password)` returns `none` on a match and
`some err` on a mismatch or failure. -/
structure Bcrypt where
  GenerateFromPassword : List Nat → Nat → List Nat × Option ExtError
  CompareHashAndPassword : List Nat → List Nat → Option ExtError

/-- A claim value stored in the jwt claims map (`auth.go` stores integers
and strings). -/
inductive ClaimVal where
  | int (i : Int) : ClaimVal
  | str (s : String) : ClaimVal
  deriving DecidableEq, Repr

/-- The jwt claims map, as an association list with overwrite-on-insert
semantics (`claims[k] = v` on a Go map). -/
def mapSet (m : List (String × ClaimVal)) (k : String) (v : ClaimVal) :
    List (String × ClaimVal) :=
  match m with
  | [] => [(k, v)]
  | (k0, v0) :: rest =>
      if k0 = k then (k, v) :: rest else (k0, v0) :: mapSet rest k v

/-- The signing primitive of `github.com/golang-jwt/jwt/v5`, abstracted:
`SignedString(alg, claims, key)` serializes the claims and signs them with
the symmetric key, returning the compact token string or an error. -/
structure JwtSigner where
  SignedString : String → List (String × ClaimVal) → List Nat →
    String × Option ExtError

/-- `Time.Unix()` on an instant measured in nanoseconds since the epoch:
floor division by 10^9 yields the Unix-seconds timestamp. -/
def unixSeconds (tNanos : Int) : Int := Int.fdiv tNanos 1000000000

/-- The claims map built by `jwt.NewToken`: starting from the empty map of
`jwt.New`, sets `uid`, `email`, `exp`, `app_id` in that order.  `now` is
the instant `time.Now()` in nanoseconds; `duration` is the
`time.Duration` argument in nanoseconds. -/
def newTokenClaims (user : User) (app : App) (duration : Int) (now : Int) :
    List (String × ClaimVal) :=
  mapSet
    (mapSet
      (mapSet
        (mapSet [] "uid" (.int user.id))
        "email" (.str user.email))
      "exp" (.int (unixSeconds (now + duration))))
    "app_id" (.int app.id)

/-- `jwt.NewToken(user, app, duration)`: build the claims map and sign it
with HMAC-SHA256 keyed by `[]byte(app.Secret)`; on a signing error return
`("", err)`. -/
def NewToken (signer : JwtSigner) (now : Int) (user : User) (app : App)
    (duration : Int) : String × Option ExtError :=
  match signer.SignedString "HS256" (newTokenClaims user app duration now)
      (strBytes app.secret) with
  | (tokenString, some err) => ("", some err)
  | (tokenString, none) => (tokenString, none)

/-- The `AuthService` struct: store references and the fixed token TTL
(nanoseconds).  The logger is dropped (diagnostics only). -/
structure AuthService where
  usrSaver : UserSaver
  usrProvider : UserProvider
  appProvider : AppProvider
  tokenTTL : Int

/-- The `op` constant of `AuthService.Login`. -/
def opLogin : String := "Auth.Login"

/-- The `op` constant of `AuthService.RegisterNewUser`. -/
def opRegister : String := "auth.RegisterNewUser"

/-- The `op` constant of `AuthService.IsAdmin`. -/
def opIsAdmin : String := "Auth.IsAdmin"

/-- The `op` constant of `AuthService.IsUserExists`. -/
def opIsUserExists : String := "Auth.IsUserExists"

/-- `AuthService.Login`: look the user up by email (`storage.ErrUserNotFound`
becomes `ErrInvalidCredentials`), verify the password with bcrypt
(mismatch becomes `ErrInvalidCredentials`), resolve the application
(errors wrapped as-is), issue a token (errors wrapped as-is); every error
is wrapped with the operation name. -/
def AuthService.Login (a : AuthService) (bc : Bcrypt) (signer : JwtSigner)
    (now : Int) (email : String) (password : String) (appID : Int) :
    String × Option GoError :=
  match a.usrProvider.User email with
  | (user, some err) =>
      if ExtError.is err .ErrUserNotFound then
        ("", some (.wrapped opLogin .ErrInvalidCredentials))
      else
        ("", some (.wrapped opLogin (.ext err)))
  | (user, none) =>
      match bc.CompareHashAndPassword user.passHash (strBytes password) with
      | some cmpErr => ("", some (.wrapped opLogin .ErrInvalidCredentials))
      | none =>
          match a.appProvider.App appID with
          | (app, some err) => ("", some (.wrapped opLogin (.ext err)))
          | (app, none) =>
              match NewToken signer now user app a.tokenTTL with
              | (tok, some err) => ("", some (.wrapped opLogin (.ext err)))
              | (tok, none) => (tok, none)

/-- `AuthService.RegisterNewUser`: hash the password (failure is fatal and
wrapped), save the user (`storage.ErrUserExists` becomes `ErrUserExists`,
other errors wrapped as-is), return the new user id. -/
def AuthService.RegisterNewUser (a : AuthService) (bc : Bcrypt)
    (email : String) (pass : String) : Int × Option GoError :=
  match bc.GenerateFromPassword (strBytes pass) bcryptDefaultCost with
  | (passHash, some err) => (0, some (.wrapped opRegister (.ext err)))
  | (passHash, none) =>
      match a.usrSaver.SaveUser email passHash with
      | (id, some err) =>
          if ExtError.is err .ErrUserExists then
            (0, some (.wrapped opRegister .ErrUserExists))
          else
            (0, some (.wrapped opRegister (.ext err)))
      | (id, none) => (id, none)

/-- `AuthService.IsAdmin`: delegate to the store; `storage.ErrUserNotFound`
is remapped to `ErrInvalidAppID`, other errors wrapped as-is. -/
def AuthService.IsAdmin (a : AuthService) (userID : Int) :
    Bool × Option GoError :=
  match a.usrProvider.IsAdmin userID with
  | (isAdm, some err) =>
      if ExtError.is err .ErrUserNotFound then
        (false, some (.wrapped opIsAdmin .ErrInvalidAppID))
      else
        (false, some (.wrapped opIsAdmin (.ext err)))
  | (isAdm, none) => (isAdm, none)

/-- `AuthService.IsUserExists`: delegate to the store;
`storage.ErrUserNotFound` is remapped to `ErrInvalidAppID`, other errors
wrapped as-is. -/
def AuthService.IsUserExists (a : AuthService) (userID : Int) :
    Bool × Option GoError :=
  match a.usrProvider.IsUserExists userID with
  | (exists0, some err) =>
      if ExtError.is err .ErrUserNotFound then
        (false, some (.wrapped opIsUserExists .ErrInvalidAppID))
      else
        (false, some (.wrapped opIsUserExists (.ext err)))
  | (exists0, none) => (exists0, none)

/-! ### Helper lemmas: exhaustive result shapes of the four operations -/

/-- Every `Login` result is either a token with nil error, or the empty
string with a wrapped `ErrInvalidCredentials`, or the empty string with a
wrapped external error. -/
theorem login_result_cases (a : AuthService) (bc : Bcrypt) (signer : JwtSigner)
    (now : Int) (email password : String) (appID : Int) :
    (∃ tok, a.Login bc signer now email password appID = (tok, none)) ∨
    a.Login bc signer now email password appID =
      ("", some (.wrapped opLogin .ErrInvalidCredentials)) ∨
    ∃ x, a.Login bc signer now email password appID =
      ("", some (.wrapped opLogin (.ext x))) := by
  rcases hu : a.usrProvider.User email with ⟨u, uerr⟩
  cases uerr with
  | some err =>
    cases hn : ExtError.is err .ErrUserNotFound with
    | true =>
      right; left
      simp [AuthService.Login, hu, hn]
    | false =>
      right; right
      exact ⟨err, by simp [AuthService.Login, hu, hn]⟩
  | none =>
    cases hc : bc.CompareHashAndPassword u.passHash (strBytes password) with
    | some ce =>
      right; left
      simp [AuthService.Login, hu, hc]
    | none =>
      rcases ha : a.appProvider.App appID with ⟨ap, aerr⟩
      cases aerr with
      | some err =>
        right; right
        exact ⟨err, by simp [AuthService.Login, hu, hc, ha]⟩
      | none =>
        rcases ht : NewToken signer now u ap a.tokenTTL with ⟨tok, terr⟩
        cases terr with
        | some err =>
          right; right
          exact ⟨err, by simp [AuthService.Login, hu, hc, ha, ht]⟩
        | none =>
          left
          exact ⟨tok, by simp [AuthService.Login, hu, hc, ha, ht]⟩

/-- Every `RegisterNewUser` result is either an id with nil error, or `0`
with a wrapped `ErrUserExists`, or `0` with a wrapped external error. -/
theorem register_result_cases (a : AuthService) (bc : Bcrypt)
    (email pass : String) :
    (∃ id, a.RegisterNewUser bc email pass = (id, none)) ∨
    a.RegisterNewUser bc email pass =
      (0, some (.wrapped opRegister .ErrUserExists)) ∨
    ∃ x, a.RegisterNewUser bc email pass =
      (0, some (.wrapped opRegister (.ext x))) := by
  rcases hg : bc.GenerateFromPassword (strBytes pass) bcryptDefaultCost
    with ⟨hsh, gerr⟩
  cases gerr with
  | some err =>
    right; right
    exact ⟨err, by simp [AuthService.RegisterNewUser, hg]⟩
  | none =>
    rcases hs : a.usrSaver.SaveUser email hsh with ⟨id, serr⟩
    cases serr with
    | some err =>
      cases hn : ExtError.is err .ErrUserExists with
      | true =>
        right; left
        simp [AuthService.RegisterNewUser, hg, hs, hn]
      | false =>
        right; right
        exact ⟨err, by simp [AuthService.RegisterNewUser, hg, hs, hn]⟩
    | none =>
      left
      exact ⟨id, by simp [AuthService.RegisterNewUser, hg, hs]⟩

/-- Every `IsAdmin` result is either a boolean with nil error, or `false`
with a wrapped `ErrInvalidAppID`, or `false` with a wrapped external
error. -/
theorem isAdmin_result_cases (a : AuthService) (userID : Int) :
    (∃ b, a.IsAdmin userID = (b, none)) ∨
    a.IsAdmin userID = (false, some (.wrapped opIsAdmin .ErrInvalidAppID)) ∨
    ∃ x, a.IsAdmin userID = (false, some (.wrapped opIsAdmin (.ext x))) := by
  rcases hq : a.usrProvider.IsAdmin userID with ⟨b, qerr⟩
  cases qerr with
  | some err =>
    cases hn : ExtError.is err .ErrUserNotFound with
    | true =>
      right; left
      simp [AuthService.IsAdmin, hq, hn]
    | false =>
      right; right
      exact ⟨err, by simp [AuthService.IsAdmin, hq, hn]⟩
  | none =>
    left
    exact ⟨b, by simp [AuthService.IsAdmin, hq]⟩

/-- Every `IsUserExists` result is either a boolean with nil error, or
`false` with a wrapped `ErrInvalidAppID`, or `false` with a wrapped
external error. -/
theorem isUserExists_result_cases (a : AuthService) (userID : Int) :
    (∃ b, a.IsUserExists userID = (b, none)) ∨
    a.IsUserExists userID =
      (false, some (.wrapped opIsUserExists .ErrInvalidAppID)) ∨
    ∃ x, a.IsUserExists userID =
      (false, some (.wrapped opIsUserExists (.ext x))) := by
  rcases hq : a.usrProvider.IsUserExists userID with ⟨b, qerr⟩
  cases qerr with
  | some err =>
    cases hn : ExtError.is err .ErrUserNotFound with
    | true =>
      right; left
      simp [AuthService.IsUserExists, hq, hn]
    | false =>
      right; right
      exact ⟨err, by simp [AuthService.IsUserExists, hq, hn]⟩
  | none =>
    left
    exact ⟨b, by simp [AuthService.IsUserExists, hq]⟩

/-! ### Helper lemmas about `errors.Is` -/

/-- Matching a wrapped error against a target that is not that wrapped
error itself just unwraps one layer. -/
theorem goIs_unwrap (o : String) (k t : GoError)
    (h : t ≠ GoError.wrapped o k) :
    GoError.is (.wrapped o k) t = GoError.is k t := by
  simp only [GoError.is, decide_eq_false (Ne.symm h), Bool.false_or]

/-- An embedded external error never matches the `auth` package's
`ErrUserNotFound` sentinel. -/
theorem goIs_ext_userNotFound (x : ExtError) :
    GoError.is (.ext x) GoError.ErrUserNotFound = false := by
  simp [GoError.is]

/-- An embedded external error never matches the `auth` package's
`ErrInvalidAppID` sentinel. -/
theorem goIs_ext_invalidAppID (x : ExtError) :
    GoError.is (.ext x) GoError.ErrInvalidAppID = false := by
  simp [GoError.is]

/-- An embedded external error never matches the `auth` package's
`ErrInvalidCredentials` sentinel. -/
theorem goIs_ext_invalidCredentials (x : ExtError) :
    GoError.is (.ext x) GoError.ErrInvalidCredentials = false := by
  simp [GoError.is]

/-- An embedded external error never matches the `auth` package's
`ErrUserExists` sentinel. -/
theorem goIs_ext_userExists (x : ExtError) :
    GoError.is (.ext x) GoError.ErrUserExists = false := by
  simp [GoError.is]

/-! ### Concrete fixtures used by the witness theorems -/

/-- A concrete registered user: id 1, email `a@x.com`, hash of `pw`. -/
def wUser : User := { id := 1, email := "a@x.com", passHash := strBytes "pw" }

/-- A concrete application: id 42 with its signing secret. -/
def wApp : App := { id := 42, secret := "s3cr3t" }

/-- A user provider that knows exactly the user `a@x.com` (id 1) and
reports `storage.ErrUserNotFound` otherwise. -/
def wProvider : UserProvider :=
  { User := fun e => if e = "a@x.com" then (wUser, none)
      else (User.zero, some .ErrUserNotFound)
  , IsAdmin := fun i => if i = 1 then (true, none)
      else (false, some .ErrUserNotFound)
  , IsUserExists := fun i => if i = 1 then (true, none)
      else (false, some .ErrUserNotFound) }

/-- A user saver for which `a@x.com` is already taken (the store reports
`storage.ErrUserExists`) and any other email is stored under id 7. -/
def wSaver : UserSaver :=
  { SaveUser := fun e _ => if e = "a@x.com" then (0, some .ErrUserExists)
      else (7, none) }

/-- An app provider that knows exactly application 42 and fails with a
store-level error otherwise. -/
def wAppProvider : AppProvider :=
  { App := fun i => if i = 42 then (wApp, none)
      else (App.zero, some (.other 2)) }

/-- An app provider whose lookups always fail. -/
def wAppProviderDown : AppProvider :=
  { App := fun _ => (App.zero, some (.other 9)) }

/-- A bcrypt model whose hash of a password is the password's bytes and
whose comparison is byte equality (mismatch yields an error value, as in
`bcrypt.ErrMismatchedHashAndPassword`). -/
def wBcrypt : Bcrypt :=
  { GenerateFromPassword := fun p _ => (p, none)
  , CompareHashAndPassword := fun h p => if h = p then none
      else some (.other 1) }

/-- A bcrypt model whose hashing always fails (environment fault). -/
def wBcryptFail : Bcrypt :=
  { GenerateFromPassword := fun _ _ => ([], some (.other 3))
  , CompareHashAndPassword := fun _ _ => none }

/-- A signer that always succeeds with the string `token`. -/
def wSigner : JwtSigner := { SignedString := fun _ _ _ => ("token", none) }

/-- The auth service assembled from the fixtures, with a 1-hour TTL. -/
def wAuth : AuthService :=
  { usrSaver := wSaver, usrProvider := wProvider,
    appProvider := wAppProvider, tokenTTL := 3600000000000 }

/-! ### The claims -/

/-- C1: if the user store reports that no user with the email exists, or
the user is found but the supplied password does not match the stored
hash, then `Login` fails with the `ErrInvalidCredentials` kind — and in
both cases the returned value is the identical pair, so the caller cannot
distinguish an unknown email from a wrong password. -/
theorem c1_login_invalidCredentials_indistinguishable
    (a : AuthService) (bc : Bcrypt) (signer : JwtSigner) (now : Int)
    (email password : String) (appID : Int)
    (h : (∃ u err, a.usrProvider.User email = (u, some err) ∧
            ExtError.is err .ErrUserNotFound = true) ∨
         (∃ u ce, a.usrProvider.User email = (u, none) ∧
            bc.CompareHashAndPassword u.passHash (strBytes password) =
              some ce)) :
    a.Login bc signer now email password appID =
      ("", some (.wrapped opLogin .ErrInvalidCredentials)) ∧
    GoError.is (.wrapped opLogin .ErrInvalidCredentials)
      GoError.ErrInvalidCredentials = true := by
  refine ⟨?_, by decide⟩
  rcases h with ⟨u, err, hu, hn⟩ | ⟨u, ce, hu, hc⟩
  · simp [AuthService.Login, hu, hn]
  · simp [AuthService.Login, hu, hc]

/-- C1 witness: a login with an unregistered email on the concrete
fixtures yields exactly the invalid-credentials failure. -/
theorem c1_login_invalidCredentials_indistinguishable_witness :
    wAuth.Login wBcrypt wSigner 0 "b@x.com" "pw" 42 =
      ("", some (.wrapped opLogin .ErrInvalidCredentials)) ∧
    GoError.is (.wrapped opLogin .ErrInvalidCredentials)
      GoError.ErrInvalidCredentials = true :=
  c1_login_invalidCredentials_indistinguishable wAuth wBcrypt wSigner 0
    "b@x.com" "pw" 42 (Or.inl ⟨User.zero, .ErrUserNotFound, rfl, rfl⟩)

/-- C2: the claims map built by the token issuer contains exactly the four
claims `uid`, `email`, `exp`, `app_id`, with `exp` the Unix timestamp of
issuance time plus the duration; a successful `NewToken` is exactly the
signer's output on those claims keyed by the application's secret; and a
successful `Login` token is a `NewToken` for the resolved user and
application with the service's fixed TTL. -/
theorem c2_token_claims_exact
    (a : AuthService) (bc : Bcrypt) (signer : JwtSigner) (now : Int)
    (user : User) (app : App) (duration : Int)
    (email password : String) (appID : Int) (tok tokL : String)
    (hN : NewToken signer now user app duration = (tok, none))
    (hL : a.Login bc signer now email password appID = (tokL, none)) :
    newTokenClaims user app duration now =
      [("uid", ClaimVal.int user.id), ("email", ClaimVal.str user.email),
       ("exp", ClaimVal.int (unixSeconds (now + duration))),
       ("app_id", ClaimVal.int app.id)] ∧
    signer.SignedString "HS256" (newTokenClaims user app duration now)
      (strBytes app.secret) = (tok, none) ∧
    ∃ u ap, a.usrProvider.User email = (u, none) ∧
      a.appProvider.App appID = (ap, none) ∧
      NewToken signer now u ap a.tokenTTL = (tokL, none) := by
  refine ⟨by simp [newTokenClaims, mapSet], ?_, ?_⟩
  · rcases hs : signer.SignedString "HS256"
        (newTokenClaims user app duration now) (strBytes app.secret)
      with ⟨ts, serr⟩
    unfold NewToken at hN
    rw [hs] at hN
    cases serr with
    | some err => simp at hN
    | none =>
      simp only [Prod.mk.injEq, and_true] at hN
      rw [hN]
  · rcases hu : a.usrProvider.User email with ⟨u, uerr⟩
    cases uerr with
    | some err =>
      cases hn : ExtError.is err .ErrUserNotFound with
      | true => simp [AuthService.Login, hu, hn] at hL
      | false => simp [AuthService.Login, hu, hn] at hL
    | none =>
      cases hc : bc.CompareHashAndPassword u.passHash (strBytes password) with
      | some ce => simp [AuthService.Login, hu, hc] at hL
      | none =>
        rcases ha : a.appProvider.App appID with ⟨ap, aerr⟩
        cases aerr with
        | some err => simp [AuthService.Login, hu, hc, ha] at hL
        | none =>
          rcases ht : NewToken signer now u ap a.tokenTTL with ⟨tk, terr⟩
          cases terr with
          | some err => simp [AuthService.Login, hu, hc, ha, ht] at hL
          | none =>
            simp only [AuthService.Login, hu, hc, ha, ht,
              Prod.mk.injEq, and_true] at hL
            exact ⟨u, ap, rfl, rfl, by rw [ht, hL]⟩

/-- C2 witness: on the concrete fixtures the issued token is the signer's
output on exactly the four claims, and the login token is a `NewToken`
for the resolved user and application. -/
theorem c2_token_claims_exact_witness :
    NewToken wSigner 0 wUser wApp 3600000000000 = ("token", none) ∧
    wAuth.Login wBcrypt wSigner 0 "a@x.com" "pw" 42 = ("token", none) ∧
    (newTokenClaims wUser wApp 3600000000000 0 =
      [("uid", ClaimVal.int wUser.id), ("email", ClaimVal.str wUser.email),
       ("exp", ClaimVal.int (unixSeconds (0 + 3600000000000))),
       ("app_id", ClaimVal.int wApp.id)] ∧
     wSigner.SignedString "HS256" (newTokenClaims wUser wApp 3600000000000 0)
       (strBytes wApp.secret) = ("token", none) ∧
     ∃ u ap, wAuth.usrProvider.User "a@x.com" = (u, none) ∧
       wAuth.appProvider.App 42 = (ap, none) ∧
       NewToken wSigner 0 u ap wAuth.tokenTTL = ("token", none)) :=
  ⟨rfl, by decide,
   c2_token_claims_exact wAuth wBcrypt wSigner 0 wUser wApp 3600000000000
     "a@x.com" "pw" 42 "token" "token" rfl (by decide)⟩

/-- C3: when hashing succeeds, `RegisterNewUser` returns the id the store
assigned when the store accepts the save, and fails with the
`ErrUserExists` kind when the store reports that the email is already
taken — so the same email registered twice yields an id first and
`UserExists` second. -/
theorem c3_register_success_then_userExists
    (a : AuthService) (bc : Bcrypt) (email pass : String) (hsh : List Nat)
    (hg : bc.GenerateFromPassword (strBytes pass) bcryptDefaultCost =
      (hsh, none)) :
    (∀ id, a.usrSaver.SaveUser email hsh = (id, none) →
        a.RegisterNewUser bc email pass = (id, none)) ∧
    (∀ v err, a.usrSaver.SaveUser email hsh = (v, some err) →
        ExtError.is err .ErrUserExists = true →
        a.RegisterNewUser bc email pass =
          (0, some (.wrapped opRegister .ErrUserExists)) ∧
        GoError.is (.wrapped opRegister .ErrUserExists)
          GoError.ErrUserExists = true) := by
  constructor
  · intro id hs
    simp [AuthService.RegisterNewUser, hg, hs]
  · intro v err hs hn
    exact ⟨by simp [AuthService.RegisterNewUser, hg, hs, hn], by decide⟩

/-- C3 witness: on the fixtures, registering a fresh email returns the
store-assigned id 7, and registering the already-taken email fails with
`ErrUserExists`. -/
theorem c3_register_success_then_userExists_witness :
    wAuth.RegisterNewUser wBcrypt "b@x.com" "pw" = (7, none) ∧
    wAuth.RegisterNewUser wBcrypt "a@x.com" "pw" =
      (0, some (.wrapped opRegister .ErrUserExists)) :=
  ⟨(c3_register_success_then_userExists wAuth wBcrypt "b@x.com" "pw"
      (strBytes "pw") rfl).1 7 (by decide),
   ((c3_register_success_then_userExists wAuth wBcrypt "a@x.com" "pw"
      (strBytes "pw") rfl).2 0 .ErrUserExists (by decide) rfl).1⟩

/-- C4: when the user store reports "user not found", `IsAdmin` fails with
the `ErrInvalidAppID` kind and `IsUserExists` fails with that same kind —
the two queries return the same classified error kind as each other. -/
theorem c4_queries_notFound_same_kind (a : AuthService) (userID : Int) :
    (∀ v err, a.usrProvider.IsAdmin userID = (v, some err) →
        ExtError.is err .ErrUserNotFound = true →
        a.IsAdmin userID =
          (false, some (.wrapped opIsAdmin .ErrInvalidAppID)) ∧
        GoError.is (.wrapped opIsAdmin .ErrInvalidAppID)
          GoError.ErrInvalidAppID = true) ∧
    (∀ v err, a.usrProvider.IsUserExists userID = (v, some err) →
        ExtError.is err .ErrUserNotFound = true →
        a.IsUserExists userID =
          (false, some (.wrapped opIsUserExists .ErrInvalidAppID)) ∧
        GoError.is (.wrapped opIsUserExists .ErrInvalidAppID)
          GoError.ErrInvalidAppID = true) := by
  constructor
  · intro v err hq hn
    exact ⟨by simp [AuthService.IsAdmin, hq, hn], by decide⟩
  · intro v err hq hn
    exact ⟨by simp [AuthService.IsUserExists, hq, hn], by decide⟩

/-- C4 witness: both queries on the non-existent user id 5 fail with an
error of the `ErrInvalidAppID` kind. -/
theorem c4_queries_notFound_same_kind_witness :
    wAuth.IsAdmin 5 = (false, some (.wrapped opIsAdmin .ErrInvalidAppID)) ∧
    wAuth.IsUserExists 5 =
      (false, some (.wrapped opIsUserExists .ErrInvalidAppID)) :=
  ⟨((c4_queries_notFound_same_kind wAuth 5).1 false .ErrUserNotFound
      (by decide) rfl).1,
   ((c4_queries_notFound_same_kind wAuth 5).2 false .ErrUserNotFound
      (by decide) rfl).1⟩

/-- C5: with invalid credentials (unknown email or wrong password),
`Login` returns the invalid-credentials failure without consulting the
Application Store: the result is identical for two services that differ
only in their app provider. -/
theorem c5_credentials_checked_before_app_lookup
    (s : UserSaver) (up : UserProvider) (ap1 ap2 : AppProvider) (ttl : Int)
    (bc : Bcrypt) (signer : JwtSigner) (now : Int)
    (email password : String) (appID : Int)
    (h : (∃ u err, up.User email = (u, some err) ∧
            ExtError.is err .ErrUserNotFound = true) ∨
         (∃ u ce, up.User email = (u, none) ∧
            bc.CompareHashAndPassword u.passHash (strBytes password) =
              some ce)) :
    AuthService.Login ⟨s, up, ap1, ttl⟩ bc signer now email password appID =
      ("", some (.wrapped opLogin .ErrInvalidCredentials)) ∧
    AuthService.Login ⟨s, up, ap1, ttl⟩ bc signer now email password appID =
      AuthService.Login ⟨s, up, ap2, ttl⟩ bc signer now email password appID
    := by
  have key : ∀ ap : AppProvider,
      AuthService.Login ⟨s, up, ap, ttl⟩ bc signer now email password appID =
        ("", some (.wrapped opLogin .ErrInvalidCredentials)) := by
    intro ap
    rcases h with ⟨u, err, hu, hn⟩ | ⟨u, ce, hu, hc⟩
    · simp [AuthService.Login, hu, hn]
    · simp [AuthService.Login, hu, hc]
  exact ⟨key ap1, (key ap1).trans (key ap2).symm⟩

/-- C5 witness: a login with bad credentials gives the identical
invalid-credentials result whether the app provider can resolve ids or is
entirely down. -/
theorem c5_credentials_checked_before_app_lookup_witness :
    AuthService.Login ⟨wSaver, wProvider, wAppProvider, 3600000000000⟩
      wBcrypt wSigner 0 "b@x.com" "pw" 42 =
      ("", some (.wrapped opLogin .ErrInvalidCredentials)) ∧
    AuthService.Login ⟨wSaver, wProvider, wAppProvider, 3600000000000⟩
      wBcrypt wSigner 0 "b@x.com" "pw" 42 =
    AuthService.Login ⟨wSaver, wProvider, wAppProviderDown, 3600000000000⟩
      wBcrypt wSigner 0 "b@x.com" "pw" 42 :=
  c5_credentials_checked_before_app_lookup wSaver wProvider wAppProvider
    wAppProviderDown 3600000000000 wBcrypt wSigner 0 "b@x.com" "pw" 42
    (Or.inl ⟨User.zero, .ErrUserNotFound, by decide, rfl⟩)

/-- C6: with valid credentials, an Application Store failure makes `Login`
fail with exactly the underlying store error wrapped with the operation
name — an error that matches none of the classified service kinds. -/
theorem c6_login_app_error_wrapped_as_is
    (a : AuthService) (bc : Bcrypt) (signer : JwtSigner) (now : Int)
    (email password : String) (appID : Int) (u : User) (ap : App)
    (err : ExtError)
    (hu : a.usrProvider.User email = (u, none))
    (hc : bc.CompareHashAndPassword u.passHash (strBytes password) = none)
    (ha : a.appProvider.App appID = (ap, some err)) :
    a.Login bc signer now email password appID =
      ("", some (.wrapped opLogin (.ext err))) ∧
    GoError.is (.wrapped opLogin (.ext err))
      GoError.ErrInvalidCredentials = false ∧
    GoError.is (.wrapped opLogin (.ext err)) GoError.ErrInvalidAppID = false ∧
    GoError.is (.wrapped opLogin (.ext err)) GoError.ErrUserExists = false ∧
    GoError.is (.wrapped opLogin (.ext err)) GoError.ErrUserNotFound = false
    := by
  refine ⟨by simp [AuthService.Login, hu, hc, ha],
    (goIs_unwrap _ _ _ (by simp)).trans (goIs_ext_invalidCredentials err),
    (goIs_unwrap _ _ _ (by simp)).trans (goIs_ext_invalidAppID err),
    (goIs_unwrap _ _ _ (by simp)).trans (goIs_ext_userExists err),
    (goIs_unwrap _ _ _ (by simp)).trans (goIs_ext_userNotFound err)⟩

/-- C6 witness: a login with correct credentials against the unknown
application id 7 fails with the wrapped store error, unclassified. -/
theorem c6_login_app_error_wrapped_as_is_witness :
    wAuth.Login wBcrypt wSigner 0 "a@x.com" "pw" 7 =
      ("", some (.wrapped opLogin (.ext (.other 2)))) ∧
    GoError.is (.wrapped opLogin (.ext (.other 2)))
      GoError.ErrInvalidCredentials = false ∧
    GoError.is (.wrapped opLogin (.ext (.other 2)))
      GoError.ErrInvalidAppID = false ∧
    GoError.is (.wrapped opLogin (.ext (.other 2)))
      GoError.ErrUserExists = false ∧
    GoError.is (.wrapped opLogin (.ext (.other 2)))
      GoError.ErrUserNotFound = false :=
  c6_login_app_error_wrapped_as_is wAuth wBcrypt wSigner 0 "a@x.com" "pw" 7
    wUser App.zero (.other 2) (by decide) (by decide) (by decide)

/-- C7: every failure of the four operations is wrapped with the
originating operation's name and returned; in particular a hashing
failure is fatal to `RegisterNewUser` and surfaced wrapped, without
retry. -/
theorem c7_errors_wrapped_with_op
    (a : AuthService) (bc : Bcrypt) (signer : JwtSigner) (now : Int)
    (email password pass : String) (appID : Int) (uidA uidE : Int) :
    (∀ e, (a.Login bc signer now email password appID).2 = some e →
        ∃ e0, e = GoError.wrapped opLogin e0) ∧
    (∀ e, (a.RegisterNewUser bc email pass).2 = some e →
        ∃ e0, e = GoError.wrapped opRegister e0) ∧
    (∀ e, (a.IsAdmin uidA).2 = some e →
        ∃ e0, e = GoError.wrapped opIsAdmin e0) ∧
    (∀ e, (a.IsUserExists uidE).2 = some e →
        ∃ e0, e = GoError.wrapped opIsUserExists e0) ∧
    (∀ v err,
        bc.GenerateFromPassword (strBytes pass) bcryptDefaultCost =
          (v, some err) →
        a.RegisterNewUser bc email pass =
          (0, some (GoError.wrapped opRegister (GoError.ext err)))) := by
  refine ⟨?_, ?_, ?_, ?_, ?_⟩
  · intro e he
    rcases login_result_cases a bc signer now email password appID with
      ⟨tok, hr⟩ | hr | ⟨x, hr⟩
    · rw [hr] at he; simp at he
    · rw [hr] at he; exact ⟨_, (Option.some.inj he).symm⟩
    · rw [hr] at he; exact ⟨_, (Option.some.inj he).symm⟩
  · intro e he
    rcases register_result_cases a bc email pass with ⟨id, hr⟩ | hr | ⟨x, hr⟩
    · rw [hr] at he; simp at he
    · rw [hr] at he; exact ⟨_, (Option.some.inj he).symm⟩
    · rw [hr] at he; exact ⟨_, (Option.some.inj he).symm⟩
  · intro e he
    rcases isAdmin_result_cases a uidA with ⟨b, hr⟩ | hr | ⟨x, hr⟩
    · rw [hr] at he; simp at he
    · rw [hr] at he; exact ⟨_, (Option.some.inj he).symm⟩
    · rw [hr] at he; exact ⟨_, (Option.some.inj he).symm⟩
  · intro e he
    rcases isUserExists_result_cases a uidE with ⟨b, hr⟩ | hr | ⟨x, hr⟩
    · rw [hr] at he; simp at he
    · rw [hr] at he; exact ⟨_, (Option.some.inj he).symm⟩
    · rw [hr] at he; exact ⟨_, (Option.some.inj he).symm⟩
  · intro v err hg
    simp [AuthService.RegisterNewUser, hg]

/-- C7 witness: a concrete login failure is wrapped with the Login
operation name, and a concrete hashing failure surfaces wrapped from
`RegisterNewUser`. -/
theorem c7_errors_wrapped_with_op_witness :
    (∃ e0, GoError.wrapped opLogin GoError.ErrInvalidCredentials =
        GoError.wrapped opLogin e0) ∧
    wAuth.RegisterNewUser wBcryptFail "a@x.com" "pw" =
      (0, some (GoError.wrapped opRegister (GoError.ext (.other 3)))) :=
  ⟨(c7_errors_wrapped_with_op wAuth wBcrypt wSigner 0 "b@x.com" "pw" "pw"
      42 5 5).1 _ (by decide),
   (c7_errors_wrapped_with_op wAuth wBcryptFail wSigner 0 "b@x.com" "pw"
      "pw" 42 5 5).2.2.2.2 [] (.other 3) rfl⟩

/-- C8: no operation of the service ever returns an error of the
`ErrUserNotFound` kind, whatever the stores do: a store-level "user not
found" is always translated to `ErrInvalidCredentials` (Login) or
`ErrInvalidAppID` (the two queries). -/
theorem c8_errUserNotFound_never_returned
    (a : AuthService) (bc : Bcrypt) (signer : JwtSigner) (now : Int)
    (email password pass : String) (appID : Int) (uidA uidE : Int) :
    (∀ e, (a.Login bc signer now email password appID).2 = some e →
        GoError.is e GoError.ErrUserNotFound = false) ∧
    (∀ e, (a.RegisterNewUser bc email pass).2 = some e →
        GoError.is e GoError.ErrUserNotFound = false) ∧
    (∀ e, (a.IsAdmin uidA).2 = some e →
        GoError.is e GoError.ErrUserNotFound = false) ∧
    (∀ e, (a.IsUserExists uidE).2 = some e →
        GoError.is e GoError.ErrUserNotFound = false) := by
  refine ⟨?_, ?_, ?_, ?_⟩
  · intro e he
    rcases login_result_cases a bc signer now email password appID with
      ⟨tok, hr⟩ | hr | ⟨x, hr⟩
    · rw [hr] at he; simp at he
    · rw [hr] at he
      obtain rfl := (Option.some.inj he).symm
      rw [goIs_unwrap _ _ _ (by simp)]; decide
    · rw [hr] at he
      obtain rfl := (Option.some.inj he).symm
      rw [goIs_unwrap _ _ _ (by simp), goIs_ext_userNotFound]
  · intro e he
    rcases register_result_cases a bc email pass with ⟨id, hr⟩ | hr | ⟨x, hr⟩
    · rw [hr] at he; simp at he
    · rw [hr] at he
      obtain rfl := (Option.some.inj he).symm
      rw [goIs_unwrap _ _ _ (by simp)]; decide
    · rw [hr] at he
      obtain rfl := (Option.some.inj he).symm
      rw [goIs_unwrap _ _ _ (by simp), goIs_ext_userNotFound]
  · intro e he
    rcases isAdmin_result_cases a uidA with ⟨b, hr⟩ | hr | ⟨x, hr⟩
    · rw [hr] at he; simp at he
    · rw [hr] at he
      obtain rfl := (Option.some.inj he).symm
      rw [goIs_unwrap _ _ _ (by simp)]; decide
    · rw [hr] at he
      obtain rfl := (Option.some.inj he).symm
      rw [goIs_unwrap _ _ _ (by simp), goIs_ext_userNotFound]
  · intro e he
    rcases isUserExists_result_cases a uidE with ⟨b, hr⟩ | hr | ⟨x, hr⟩
    · rw [hr] at he; simp at he
    · rw [hr] at he
      obtain rfl := (Option.some.inj he).symm
      rw [goIs_unwrap _ _ _ (by simp)]; decide
    · rw [hr] at he
      obtain rfl := (Option.some.inj he).symm
      rw [goIs_unwrap _ _ _ (by simp), goIs_ext_userNotFound]

/-- C8 witness: the concrete error returned by a failed login does not
match the `ErrUserNotFound` sentinel. -/
theorem c8_errUserNotFound_never_returned_witness :
    GoError.is (GoError.wrapped opLogin GoError.ErrInvalidCredentials)
      GoError.ErrUserNotFound = false :=
  (c8_errUserNotFound_never_returned wAuth wBcrypt wSigner 0 "b@x.com" "pw"
    "pw" 42 5 5).1 _ (by decide)

/-- C9: `Login` never returns an error of the `ErrInvalidAppID` kind: an
invalid application id at login surfaces as the wrapped store error
instead. -/
theorem c9_invalidAppID_never_from_login
    (a : AuthService) (bc : Bcrypt) (signer : JwtSigner) (now : Int)
    (email password : String) (appID : Int) :
    (∀ e, (a.Login bc signer now email password appID).2 = some e →
        GoError.is e GoError.ErrInvalidAppID = false) ∧
    (∀ u ap err, a.usrProvider.User email = (u, none) →
        bc.CompareHashAndPassword u.passHash (strBytes password) = none →
        a.appProvider.App appID = (ap, some err) →
        a.Login bc signer now email password appID =
          ("", some (GoError.wrapped opLogin (GoError.ext err)))) := by
  constructor
  · intro e he
    rcases login_result_cases a bc signer now email password appID with
      ⟨tok, hr⟩ | hr | ⟨x, hr⟩
    · rw [hr] at he; simp at he
    · rw [hr] at he
      obtain rfl := (Option.some.inj he).symm
      rw [goIs_unwrap _ _ _ (by simp)]; decide
    · rw [hr] at he
      obtain rfl := (Option.some.inj he).symm
      rw [goIs_unwrap _ _ _ (by simp), goIs_ext_invalidAppID]
  · intro u ap err hu hc ha
    simp [AuthService.Login, hu, hc, ha]

/-- C9 witness: the concrete invalid-credentials login error does not
match `ErrInvalidAppID`, and the concrete bad-app-id login surfaces the
wrapped store error. -/
theorem c9_invalidAppID_never_from_login_witness :
    GoError.is (GoError.wrapped opLogin GoError.ErrInvalidCredentials)
      GoError.ErrInvalidAppID = false ∧
    wAuth.Login wBcrypt wSigner 0 "a@x.com" "pw" 7 =
      ("", some (GoError.wrapped opLogin (GoError.ext (.other 2)))) :=
  ⟨(c9_invalidAppID_never_from_login wAuth wBcrypt wSigner 0 "b@x.com" "pw"
      42).1 _ (by decide),
   (c9_invalidAppID_never_from_login wAuth wBcrypt wSigner 0 "a@x.com" "pw"
      7).2 wUser App.zero (.other 2) (by decide) (by decide) (by decide)⟩

/-- C10: whenever an operation returns a non-nil error, its result value
is the zero value of its result type: `""` for Login, `0` for
RegisterNewUser, `false` for IsAdmin and IsUserExists. -/
theorem c10_error_implies_zero_value
    (a : AuthService) (bc : Bcrypt) (signer : JwtSigner) (now : Int)
    (email password pass : String) (appID : Int) (uidA uidE : Int) :
    (∀ e, (a.Login bc signer now email password appID).2 = some e →
        (a.Login bc signer now email password appID).1 = "") ∧
    (∀ e, (a.RegisterNewUser bc email pass).2 = some e →
        (a.RegisterNewUser bc email pass).1 = 0) ∧
    (∀ e, (a.IsAdmin uidA).2 = some e → (a.IsAdmin uidA).1 = false) ∧
    (∀ e, (a.IsUserExists uidE).2 = some e →
        (a.IsUserExists uidE).1 = false) := by
  refine ⟨?_, ?_, ?_, ?_⟩
  · intro e he
    rcases login_result_cases a bc signer now email password appID with
      ⟨tok, hr⟩ | hr | ⟨x, hr⟩
    · rw [hr] at he; simp at he
    · rw [hr]
    · rw [hr]
  · intro e he
    rcases register_result_cases a bc email pass with ⟨id, hr⟩ | hr | ⟨x, hr⟩
    · rw [hr] at he; simp at he
    · rw [hr]
    · rw [hr]
  · intro e he
    rcases isAdmin_result_cases a uidA with ⟨b, hr⟩ | hr | ⟨x, hr⟩
    · rw [hr] at he; simp at he
    · rw [hr]
    · rw [hr]
  · intro e he
    rcases isUserExists_result_cases a uidE with ⟨b, hr⟩ | hr | ⟨x, hr⟩
    · rw [hr] at he; simp at he
    · rw [hr]
    · rw [hr]

/-- C10 witness: the concrete failed login returns the empty token
string. -/
theorem c10_error_implies_zero_value_witness :
    (wAuth.Login wBcrypt wSigner 0 "b@x.com" "pw" 42).1 = "" :=
  (c10_error_implies_zero_value wAuth wBcrypt wSigner 0 "b@x.com" "pw" "pw"
    42 5 5).1 (GoError.wrapped opLogin GoError.ErrInvalidCredentials)
    (by decide)
